import Mathlib

/-!
Shallow embedding of the parking-gate firmware in the repository
Cancela_Estacionamento.  The repository holds five incremental revisions of
one Arduino/ESP32 control loop:

* V1  (src/unnamed/part_001, first file): digital sensors, per-phase timeouts;
* V2  (src/unnamed/part_005): EEPROM counter, date-based daily reset, one
  continuous transit timeout measured from admission;
* V3  (src/V3/V3.ino): modularised functions, servo gate, EEPROM + NTP;
* V4  (src/V4/V4.ino): ultrasonic entry sensor, manual-override switch,
  speculative ticket numbering with rollback;
* V5  (src/unnamed/part_001, second file): two ultrasonic sensors.

The busy-wait supervision loops (`while (...) { checks; delay(...) }`) are
embedded as structural recursion over a finite list of "ticks": one tick
holds the values the loop body would read on one iteration (entry sensor,
exit sensor, `millis()`).  An exhausted tick list means the loop is still
spinning (no resolution yet), so the supervisors return `Option`.

Physical side effects (buzzer, servo command, the pre-close settle delay)
are embedded as an emitted event list; serial prints, LED writes and EEPROM
writes are ignored (one-way sinks, per the control flow they are never read
back).  Unsigned 32-bit `millis()` arithmetic `millis() - start` is embedded
as `(now - start) % 2^32` over unbounded naturals.
-/

/-- One iteration of a busy-wait supervision loop: the boolean value each
sensor would deliver on that iteration (`entrada` = entry-presence sensor,
`saida` = exit sensor) and the value `millis()` would return. -/
structure Tick where
  entrada : Bool
  saida : Bool
  now : Nat
deriving DecidableEq

/-- Which terminal branch of a transit supervisor fired. -/
inductive Resolution
  | success
  | fraud
  | timeout
deriving DecidableEq

/-- Observable actuator/alarm events emitted while a transit resolves.
`beep d` is one buzzer pulse of `d` ms, `settle d` a blocking wait of `d` ms
taken before the next event, `abrir`/`fechar` the gate open/close commands. -/
inductive Ev
  | beep (durMs : Nat)
  | settle (ms : Nat)
  | abrir
  | fechar
deriving DecidableEq

/-- The C code computes `millis() - start` on `unsigned long` (32 bit on
ESP32): with both counters unwrapped to naturals this is
`(now - start) % 2^32` whenever `start ≤ now`. -/
def elapsedMs (now start : Nat) : Nat := (now - start) % 4294967296

/-- Arithmetic on the daily vehicle counter: the source stores it in an
`unsigned int` (4 bytes on the ESP32 — `EEPROM_SIZE`/`EEPROM_TAMANHO` are
4), so increments wrap modulo 2^32. -/
def wrap32 (n : Nat) : Nat := n % 4294967296

/-- Gate position after an event list: `abrir` opens, `fechar` closes,
other events leave the position alone (fold over the emitted trace). -/
def gateStep (g : Bool) (e : Ev) : Bool :=
  match e with
  | Ev.abrir => true
  | Ev.fechar => false
  | _ => g

/-- Gate position (`true` = open) after emitting `evs` from position `g`. -/
def gateAfter (g : Bool) (evs : List Ev) : Bool := evs.foldl gateStep g

namespace V3

/-- src/V3/V3.ino line 57. -/
def TIMEOUT_OPERACAO : Nat := 30000

/-- src/V3/V3.ino line 61. -/
def DELAY_POS_SAIDA : Nat := 2000

/-- src/V3/V3.ino line 64: number of warning beeps before a timeout close. -/
def BEEP_AVISO_TIMEOUT : Nat := 5

/-- src/V3/V3.ino line 65: duration of each warning beep (ms). -/
def DURACAO_BEEP : Nat := 200

/-- Events of `fecharCancela` (V3.ino lines 246-254): the close command.
(The LED writes and the post-movement `delay(DELAY_MOVIMENTO_CANCELA)` that
follows the command are not modelled as events.) -/
def fecharCancelaEvents : List Ev := [Ev.fechar]

/-- Events of `emitirAvisoFechamento` (V3.ino lines 259-268):
`BEEP_AVISO_TIMEOUT` beeps of `DURACAO_BEEP` ms each, then `fecharCancela`. -/
def emitirAvisoFechamentoEvents : List Ev :=
  List.replicate BEEP_AVISO_TIMEOUT (Ev.beep DURACAO_BEEP) ++ fecharCancelaEvents

/-- Events of `abrirCancela` (V3.ino lines 293-301). -/
def abrirCancelaEvents : List Ev := [Ev.abrir]

/-- The ticket number printed by `simularImpressaoTicket` (V3.ino line 282):
`contadorVeiculos + 1` in `unsigned int` arithmetic, while
`contadorVeiculos` itself is not modified by the function. -/
def simularImpressaoTicket (contadorVeiculos : Nat) : Nat :=
  wrap32 (contadorVeiculos + 1)

/-- Result of `monitorarPassagemSaida` (V3.ino lines 341-365): the C return
value (`retorno`, `true` on both fraud and timeout, `false` on success), the
branch that fired, and the emitted events. -/
structure SaidaResult where
  retorno : Bool
  res : Resolution
  events : List Ev
deriving DecidableEq

/-- `monitorarPassagemSaida` (V3.ino lines 341-365).  `tempoInicio` is the
`millis()` value captured on entry (line 342).  Per iteration the code
first evaluates the `while (!digitalRead(PINO_SENSOR_SAIDA))` condition:
exit sensor active ends the loop (settle `DELAY_POS_SAIDA`, close, return
`false`).  Inside the loop the entry sensor is checked first (fraud: close
immediately, return `true`), then the timeout (warning beeps, close, return
`true`, strict comparison `millis() - tempoInicio > TIMEOUT_OPERACAO`). -/
def monitorarPassagemSaida (tempoInicio : Nat) : List Tick → Option SaidaResult
  | [] => none
  | t :: rest =>
    if t.saida then
      some ⟨false, Resolution.success, Ev.settle DELAY_POS_SAIDA :: fecharCancelaEvents⟩
    else if t.entrada then
      some ⟨true, Resolution.fraud, fecharCancelaEvents⟩
    else if TIMEOUT_OPERACAO < elapsedMs t.now tempoInicio then
      some ⟨true, Resolution.timeout, emitirAvisoFechamentoEvents⟩
    else
      monitorarPassagemSaida tempoInicio rest

/-- Outcome of `monitorarPassagemEntrada`: timeout (with the warning events),
or the entry sensor cleared at `clearTime` leaving `restante` ticks for the
exit supervisor. -/
inductive EntradaOutcome
  | timedOut (events : List Ev)
  | cleared (clearTime : Nat) (restante : List Tick)
deriving DecidableEq

/-- `monitorarPassagemEntrada` (V3.ino lines 324-335).  Spins while the
entry sensor stays active; strict timeout `millis() - tempoInicio >
TIMEOUT_OPERACAO` fires the warning sequence.  When the sensor reads
inactive the function returns `false` and the caller moves on, so the
clearing tick's time is the start time of the exit supervisor. -/
def monitorarPassagemEntrada (tempoInicio : Nat) : List Tick → Option EntradaOutcome
  | [] => none
  | t :: rest =>
    if t.entrada then
      if TIMEOUT_OPERACAO < elapsedMs t.now tempoInicio then
        some (EntradaOutcome.timedOut emitirAvisoFechamentoEvents)
      else
        monitorarPassagemEntrada tempoInicio rest
    else
      some (EntradaOutcome.cleared t.now rest)

/-- Result of one admitted transit in the V3 loop. -/
structure TransitResult where
  numeroImpresso : Nat
  contadorDepois : Nat
  res : Resolution
  events : List Ev
deriving DecidableEq

/-- The admitted-transit branch of `loop` (V3.ino lines 152-174):
`simularImpressaoTicket` prints `contadorVeiculos + 1` (the counter itself
untouched), `abrirCancela`, then `monitorarPassagemEntrada` (start time
`tempoInicio`, its own `millis()` capture) and, if the entry cleared,
`monitorarPassagemSaida` with a fresh `millis()` capture (embedded as the
clearing tick's time).  `contadorVeiculos++` runs only when neither
supervisor reported a failure; the counter is an `unsigned int`, so both
the printed `+ 1` and the success increment wrap modulo 2^32. -/
def transitoAposPedido (contadorVeiculos tempoInicio : Nat) (ticks : List Tick) :
    Option TransitResult :=
  match monitorarPassagemEntrada tempoInicio ticks with
  | none => none
  | some (EntradaOutcome.timedOut evs) =>
    some ⟨wrap32 (contadorVeiculos + 1), contadorVeiculos, Resolution.timeout,
      abrirCancelaEvents ++ evs⟩
  | some (EntradaOutcome.cleared clearTime rest) =>
    match monitorarPassagemSaida clearTime rest with
    | none => none
    | some r =>
      some ⟨wrap32 (contadorVeiculos + 1),
        if r.retorno then contadorVeiculos else wrap32 (contadorVeiculos + 1),
        r.res, abrirCancelaEvents ++ r.events⟩

/-- `verificarResetDiarioContador` (V3.ino lines 391-400): when the current
date differs from `ultimaDataReset` and the latter is initialised (not the
empty string), zero the counter and stamp the new date, both in the same
branch; otherwise leave both alone. -/
def verificarResetDiarioContador (contadorVeiculos : Nat)
    (ultimaDataReset dataAtual : String) : Nat × String :=
  if dataAtual ≠ ultimaDataReset ∧ ultimaDataReset ≠ "" then (0, dataAtual)
  else (contadorVeiculos, ultimaDataReset)

/-- The V3 global state touched by the main loop: `estadoCancelaAberta`,
`contadorVeiculos`, `ultimaDataReset`. -/
structure SysState where
  estadoCancelaAberta : Bool
  contadorVeiculos : Nat
  ultimaDataReset : String
deriving DecidableEq

/-- Inputs consumed by one iteration of the V3 `loop`: the formatted current
date, the loop-top sensor/button reads (V3.ino lines 149-150), and the
start time plus tick trace for the supervisors if a transit is admitted. -/
structure IterIn where
  dataAtual : String
  sensorEntrada : Bool
  botaoTicket : Bool
  tempoInicio : Nat
  ticks : List Tick
deriving DecidableEq

/-- One iteration of `loop` (V3.ino lines 145-178): `atualizarRelogio`
(initialises `ultimaDataReset` when empty, lines 238-240), then
`verificarResetDiarioContador`, then — if entry sensor and ticket button are
both active (line 152, no gate-position test) — the admitted transit;
otherwise only the idle status narration (no state change). -/
def loopIter (st : SysState) (i : IterIn) : Option SysState :=
  let l0 := if st.ultimaDataReset = "" then i.dataAtual else st.ultimaDataReset
  let cr := verificarResetDiarioContador st.contadorVeiculos l0 i.dataAtual
  if i.sensorEntrada && i.botaoTicket then
    match transitoAposPedido cr.1 i.tempoInicio i.ticks with
    | none => none
    | some r => some ⟨gateAfter st.estadoCancelaAberta r.events, r.contadorDepois, cr.2⟩
  else
    some ⟨st.estadoCancelaAberta, cr.1, cr.2⟩

/-- Iterated V3 main loop over a list of per-iteration inputs. -/
def loopRun : SysState → List IterIn → Option SysState
  | st, [] => some st
  | st, i :: is =>
    match loopIter st i with
    | none => none
    | some st2 => loopRun st2 is

end V3

namespace V1

/-- src/unnamed/part_001 (V1.ino) line 108. -/
def TIMEOUT_ENTRADA_MS : Nat := 30000

/-- `gerenciarEntradaVeiculo` (V1.ino lines 197-211): spins while the entry
sensor stays active; on `millis() - tempoInicioEntrada >= TIMEOUT_ENTRADA_MS`
(non-strict, unlike V3) it alerts, closes and returns `false`; when the
sensor clears it returns `true`.  `none` = still spinning. -/
def gerenciarEntradaVeiculo (tempoInicioEntrada : Nat) : List Tick → Option Bool
  | [] => none
  | t :: rest =>
    if t.entrada then
      if TIMEOUT_ENTRADA_MS ≤ elapsedMs t.now tempoInicioEntrada then some false
      else gerenciarEntradaVeiculo tempoInicioEntrada rest
    else some true

end V1

namespace V2

/-- src/unnamed/part_005 (V2.ino) line 53. -/
def TIMEOUT_OPERACAO : Nat := 30000

/-- The admission condition of the V2 `loop` (part_005 line 243): entry
sensor active AND button pressed AND the gate currently closed. -/
def condicaoInicio (sensorEntradaAtivado botaoPressionado estadoCancelaAberta : Bool) :
    Bool :=
  sensorEntradaAtivado && botaoPressionado && !estadoCancelaAberta

/-- The transit supervision `while (estadoCancelaAberta)` loop of the V2
`loop` (part_005 lines 252-287).  One `timestampInicioPassagem` covers both
phases; per iteration the code checks, in order: the single continuous
timeout (`millis() - timestampInicioPassagem > TIMEOUT_OPERACAO`), then —
once `passouPelaEntrada` is set — the entry sensor (fraud) and the exit
sensor (success); before that, an inactive entry sensor read sets
`passouPelaEntrada`. -/
def gerenciarPassagem (timestampInicioPassagem : Nat) (passouPelaEntrada : Bool) :
    List Tick → Option Resolution
  | [] => none
  | t :: rest =>
    if TIMEOUT_OPERACAO < elapsedMs t.now timestampInicioPassagem then
      some Resolution.timeout
    else if passouPelaEntrada then
      if t.entrada then some Resolution.fraud
      else if t.saida then some Resolution.success
      else gerenciarPassagem timestampInicioPassagem passouPelaEntrada rest
    else
      if t.entrada = false then gerenciarPassagem timestampInicioPassagem true rest
      else gerenciarPassagem timestampInicioPassagem passouPelaEntrada rest

end V2

namespace V4

/-- src/V4/V4.ino line 63. -/
def TIMEOUT_OPERACAO : Nat := 30000

/-- src/V4/V4.ino line 65. -/
def ATRASO_FECHAMENTO : Nat := 2000

/-- src/V4/V4.ino line 70: number of warning beeps before a timeout close. -/
def QTD_AVISOS_SONOROS : Nat := 5

/-- src/V4/V4.ino line 71. -/
def DURACAO_BEEP_BUZZER : Nat := 500

/-- Events of `fecharCancela` (V4.ino lines 143-151). -/
def fecharCancelaEvents : List Ev := [Ev.fechar]

/-- Events of `emitirAvisoSonoroFechamento` (V4.ino lines 156-165):
`QTD_AVISOS_SONOROS` buzzer pulses of `DURACAO_BEEP_BUZZER / 2` ms each,
then `fecharCancela`. -/
def emitirAvisoSonoroFechamentoEvents : List Ev :=
  List.replicate QTD_AVISOS_SONOROS (Ev.beep (DURACAO_BEEP_BUZZER / 2)) ++
    fecharCancelaEvents

/-- `emitirTicket` (V4.ino lines 184-201): increments `contadorVeiculosDia`
first (line 190) and then prints the incremented value (line 195).  Returns
(printed vehicle number, `contadorVeiculosDia` after the call); both equal
the pre-call counter plus one in the counter's `unsigned int` arithmetic
(wrapping modulo 2^32). -/
def emitirTicket (contadorVeiculosDia : Nat) : Nat × Nat :=
  (wrap32 (contadorVeiculosDia + 1), wrap32 (contadorVeiculosDia + 1))

/-- Outcome of `gerenciarSegurancaEntrada` (V4.ino lines 206-226): timeout
(with warning events, `timeoutEntradaOcorrido` set) or the ultrasonic entry
zone cleared at `clearTime` leaving `restante` ticks.  `Tick.entrada` stands
for `sensorUltrassonico.read() <= DISTANCIA_PRESENCA_VEICULO_CM`. -/
inductive EntradaOutcome
  | timedOut (events : List Ev)
  | liberou (clearTime : Nat) (restante : List Tick)
deriving DecidableEq

/-- `gerenciarSegurancaEntrada` (V4.ino lines 206-226): spins while the
entry zone is occupied; strict timeout
`millis() - tempoInicioEspera > TIMEOUT_OPERACAO`. -/
def gerenciarSegurancaEntrada (tempoInicioEspera : Nat) :
    List Tick → Option EntradaOutcome
  | [] => none
  | t :: rest =>
    if t.entrada then
      if TIMEOUT_OPERACAO < elapsedMs t.now tempoInicioEspera then
        some (EntradaOutcome.timedOut emitirAvisoSonoroFechamentoEvents)
      else
        gerenciarSegurancaEntrada tempoInicioEspera rest
    else some (EntradaOutcome.liberou t.now rest)

/-- Result of `gerenciarSegurancaSaida` (V4.ino lines 231-265): the flag
`timeoutSaidaOcorrido` it leaves behind (`true` on both timeout and fraud,
`false` on success), the branch that fired, and the emitted events. -/
structure SaidaResult where
  timeoutSaidaOcorrido : Bool
  res : Resolution
  events : List Ev
deriving DecidableEq

/-- `gerenciarSegurancaSaida` (V4.ino lines 231-265), after its
`timeoutEntradaOcorrido` early-return guard.  Per iteration the
`while (digitalRead(pinoSensorSaida) == LOW)` condition is evaluated first:
an active exit sensor ends the loop (settle `ATRASO_FECHAMENTO`, close,
flag stays `false`).  Inside the loop the timeout is checked BEFORE the
anti-fraud ultrasonic check (lines 241 then 248), both setting
`timeoutSaidaOcorrido = true`. -/
def gerenciarSegurancaSaida (tempoInicioEspera : Nat) : List Tick → Option SaidaResult
  | [] => none
  | t :: rest =>
    if t.saida then
      some ⟨false, Resolution.success, Ev.settle ATRASO_FECHAMENTO :: fecharCancelaEvents⟩
    else if TIMEOUT_OPERACAO < elapsedMs t.now tempoInicioEspera then
      some ⟨true, Resolution.timeout, emitirAvisoSonoroFechamentoEvents⟩
    else if t.entrada then
      some ⟨true, Resolution.fraud, fecharCancelaEvents⟩
    else
      gerenciarSegurancaSaida tempoInicioEspera rest

/-- The post-transit counter update of `loop` (V4.ino lines 371-386): on any
timeout/fraud flag the speculative increment taken by `emitirTicket` is
rolled back (guarded decrement), otherwise the value is kept (and persisted). -/
def atualizarContadorPosTransito (contadorVeiculosDia : Nat)
    (timeoutEntradaOcorrido timeoutSaidaOcorrido : Bool) : Nat :=
  if timeoutEntradaOcorrido || timeoutSaidaOcorrido then
    if 0 < contadorVeiculosDia then contadorVeiculosDia - 1 else contadorVeiculosDia
  else contadorVeiculosDia

/-- Result of one admitted transit in the V4 loop. -/
structure TransitResult where
  numeroImpresso : Nat
  contadorDepois : Nat
  res : Resolution
  events : List Ev
deriving DecidableEq

/-- The admitted-transit branch of `loop` (V4.ino lines 363-386):
`emitirTicket` (speculative increment), `abrirCancela`,
`gerenciarSegurancaEntrada` (own `millis()` start), then — unless the entry
timed out — `gerenciarSegurancaSaida` with a fresh `millis()` start
(embedded as the clearing tick's time), then the rollback/keep counter
update. -/
def fluxoEntradaVeiculo (contadorVeiculosDia tempoInicio : Nat) (ticks : List Tick) :
    Option TransitResult :=
  match gerenciarSegurancaEntrada tempoInicio ticks with
  | none => none
  | some (EntradaOutcome.timedOut evs) =>
    some ⟨(emitirTicket contadorVeiculosDia).1,
      atualizarContadorPosTransito (emitirTicket contadorVeiculosDia).2 true false,
      Resolution.timeout, Ev.abrir :: evs⟩
  | some (EntradaOutcome.liberou clearTime rest) =>
    match gerenciarSegurancaSaida clearTime rest with
    | none => none
    | some r =>
      some ⟨(emitirTicket contadorVeiculosDia).1,
        atualizarContadorPosTransito (emitirTicket contadorVeiculosDia).2 false
          r.timeoutSaidaOcorrido,
        r.res, Ev.abrir :: r.events⟩

/-- The daily-reset branch of `loop` (V4.ino lines 345-351): on a date
mismatch zero the counter and stamp the new date, both in the same branch;
no emptiness guard (V4 initialises `ultimaDataResetContador` in `setup`). -/
def resetDiario (contadorVeiculosDia : Nat)
    (ultimaDataResetContador dataAtual : String) : Nat × String :=
  if dataAtual ≠ ultimaDataResetContador then (0, dataAtual)
  else (contadorVeiculosDia, ultimaDataResetContador)

end V4

namespace V5

/-- src/unnamed/part_001 (sistema_cancela_estacionamento.ino) line 511. -/
def TIMEOUT_PASSAGEM_VEICULO : Nat := 30000

/-- src/unnamed/part_001 line 502: presence threshold for both ultrasonic
sensors (cm). -/
def DISTANCIA_DETECCAO_CM : Nat := 50

/-- src/unnamed/part_001 line 513. -/
def ATRASO_FECHAMENTO_APOS_SAIDA : Nat := 2000

/-- src/unnamed/part_001 line 517. -/
def DURACAO_AVISO_SONORO_S : Nat := 5

/-- src/unnamed/part_001 line 518. -/
def PERIODO_PISCA_BUZZER_MS : Nat := 500

/-- One iteration of a V5 busy-wait loop: the two ultrasonic distance reads
(cm) and `millis()`. -/
structure TickU where
  distEntrada : Nat
  distSaida : Nat
  now : Nat
deriving DecidableEq

/-- Events of `fecharCancela` (part_001 lines 602-609). -/
def fecharCancelaEvents : List Ev := [Ev.fechar]

/-- Events of `emitirAvisoSonoroEFechar` (part_001 lines 627-636):
`DURACAO_AVISO_SONORO_S * 2` pulses of `PERIODO_PISCA_BUZZER_MS / 2` ms,
then `fecharCancela`. -/
def emitirAvisoSonoroEFecharEvents : List Ev :=
  List.replicate (DURACAO_AVISO_SONORO_S * 2) (Ev.beep (PERIODO_PISCA_BUZZER_MS / 2)) ++
    fecharCancelaEvents

/-- Outcome of `monitorarPassagemEntrada` (part_001 lines 665-679). -/
inductive EntradaOutcome
  | falha (events : List Ev)
  | passou (clearTime : Nat) (restante : List TickU)
deriving DecidableEq

/-- `monitorarPassagemEntrada` (part_001 lines 665-679): spins while
`sensorEntrada.read() <= DISTANCIA_DETECCAO_CM`; strict timeout fires the
warning-and-close sequence and returns `false`. -/
def monitorarPassagemEntrada (tempoInicio : Nat) : List TickU → Option EntradaOutcome
  | [] => none
  | t :: rest =>
    if t.distEntrada ≤ DISTANCIA_DETECCAO_CM then
      if TIMEOUT_PASSAGEM_VEICULO < elapsedMs t.now tempoInicio then
        some (EntradaOutcome.falha emitirAvisoSonoroEFecharEvents)
      else
        monitorarPassagemEntrada tempoInicio rest
    else some (EntradaOutcome.passou t.now rest)

/-- Result of `monitorarSaidaEAntifraude` (part_001 lines 685-710). -/
structure SaidaResult where
  sucesso : Bool
  res : Resolution
  events : List Ev
deriving DecidableEq

/-- `monitorarSaidaEAntifraude` (part_001 lines 685-710): spins while
`sensorSaida.read() > DISTANCIA_DETECCAO_CM` (vehicle not yet at the exit
zone); inside the loop the anti-fraud entry check comes first, then the
strict timeout; when the exit sensor detects the vehicle the loop ends
(settle `ATRASO_FECHAMENTO_APOS_SAIDA`, close, return `true`). -/
def monitorarSaidaEAntifraude (tempoInicio : Nat) : List TickU → Option SaidaResult
  | [] => none
  | t :: rest =>
    if DISTANCIA_DETECCAO_CM < t.distSaida then
      if t.distEntrada ≤ DISTANCIA_DETECCAO_CM then
        some ⟨false, Resolution.fraud, fecharCancelaEvents⟩
      else if TIMEOUT_PASSAGEM_VEICULO < elapsedMs t.now tempoInicio then
        some ⟨false, Resolution.timeout, emitirAvisoSonoroEFecharEvents⟩
      else
        monitorarSaidaEAntifraude tempoInicio rest
    else
      some ⟨true, Resolution.success,
        Ev.settle ATRASO_FECHAMENTO_APOS_SAIDA :: fecharCancelaEvents⟩

/-- Result of `iniciarProcessoEntradaVeiculo`. -/
structure ProcessoResult where
  contadorDepois : Nat
  res : Resolution
  events : List Ev
deriving DecidableEq

/-- `iniciarProcessoEntradaVeiculo` (part_001 lines 715-735):
`simularImpressaoTicket` (prints `contadorVeiculos + 1`, counter untouched),
`abrirCancela`, `monitorarPassagemEntrada`, then on success
`monitorarSaidaEAntifraude` (fresh `millis()` start, embedded as the
clearing tick's time); `contadorVeiculos++` (an `unsigned int`, wrapping
modulo 2^32) runs only when both phases succeeded. -/
def iniciarProcessoEntradaVeiculo (contadorVeiculos tempoInicio : Nat)
    (ticks : List TickU) : Option ProcessoResult :=
  match monitorarPassagemEntrada tempoInicio ticks with
  | none => none
  | some (EntradaOutcome.falha evs) =>
    some ⟨contadorVeiculos, Resolution.timeout, Ev.abrir :: evs⟩
  | some (EntradaOutcome.passou clearTime rest) =>
    match monitorarSaidaEAntifraude clearTime rest with
    | none => none
    | some r =>
      some ⟨if r.sucesso then wrap32 (contadorVeiculos + 1) else contadorVeiculos,
        r.res, Ev.abrir :: r.events⟩

/-- The admission condition of the V5 `loop` (part_001 line 799): vehicle
present at the entry ultrasonic sensor AND button pressed AND the gate
currently closed. -/
def condicaoInicio (veiculoPresenteNaEntrada botaoPressionado cancelaAberta : Bool) :
    Bool :=
  veiculoPresenteNaEntrada && botaoPressionado && !cancelaAberta

end V5

/-! Helper lemmas: the three (or fewer) concrete shapes each supervisor's
result can take, and the gate-position bookkeeping. -/

theorem gateAfter_append (g : Bool) (l1 l2 : List Ev) :
    gateAfter g (l1 ++ l2) = gateAfter (gateAfter g l1) l2 := by
  simp [gateAfter, List.foldl_append]

theorem v3_saida_cases (s : Nat) (ts : List Tick) (r : V3.SaidaResult)
    (h : V3.monitorarPassagemSaida s ts = some r) :
    r = ⟨false, Resolution.success, Ev.settle V3.DELAY_POS_SAIDA :: V3.fecharCancelaEvents⟩ ∨
    r = ⟨true, Resolution.fraud, V3.fecharCancelaEvents⟩ ∨
    r = ⟨true, Resolution.timeout, V3.emitirAvisoFechamentoEvents⟩ := by
  induction ts with
  | nil => simp [V3.monitorarPassagemSaida] at h
  | cons t rest ih =>
    simp only [V3.monitorarPassagemSaida] at h
    split at h
    · exact Or.inl (Option.some_injective _ h).symm
    · split at h
      · exact Or.inr (Or.inl (Option.some_injective _ h).symm)
      · split at h
        · exact Or.inr (Or.inr (Option.some_injective _ h).symm)
        · exact ih h

theorem v3_entrada_timedOut_events (s : Nat) (ts : List Tick) (evs : List Ev)
    (h : V3.monitorarPassagemEntrada s ts = some (V3.EntradaOutcome.timedOut evs)) :
    evs = V3.emitirAvisoFechamentoEvents := by
  induction ts with
  | nil => simp [V3.monitorarPassagemEntrada] at h
  | cons t rest ih =>
    simp only [V3.monitorarPassagemEntrada] at h
    split at h
    · split at h
      · cases (Option.some_injective _ h)
        rfl
      · exact ih h
    · simp at h

theorem v3_transit_cases (c s : Nat) (ts : List Tick) (r : V3.TransitResult)
    (h : V3.transitoAposPedido c s ts = some r) :
    r = ⟨wrap32 (c + 1), c, Resolution.timeout,
      V3.abrirCancelaEvents ++ V3.emitirAvisoFechamentoEvents⟩ ∨
    r = ⟨wrap32 (c + 1), wrap32 (c + 1), Resolution.success,
      V3.abrirCancelaEvents ++ (Ev.settle V3.DELAY_POS_SAIDA :: V3.fecharCancelaEvents)⟩ ∨
    r = ⟨wrap32 (c + 1), c, Resolution.fraud,
      V3.abrirCancelaEvents ++ V3.fecharCancelaEvents⟩ := by
  unfold V3.transitoAposPedido at h
  cases he : V3.monitorarPassagemEntrada s ts with
  | none => rw [he] at h; exact absurd h (by simp)
  | some o =>
    rw [he] at h
    cases o with
    | timedOut evs =>
      have hev := v3_entrada_timedOut_events s ts evs he
      subst hev
      exact Or.inl (Option.some_injective _ h).symm
    | cleared tc rest =>
      simp only at h
      cases hs : V3.monitorarPassagemSaida tc rest with
      | none => rw [hs] at h; exact absurd h (by simp)
      | some rs =>
        rw [hs] at h
        rcases v3_saida_cases tc rest rs hs with hc | hc | hc <;>
          subst hc <;> simp only at h
        · exact Or.inr (Or.inl (Option.some_injective _ h).symm)
        · exact Or.inr (Or.inr (Option.some_injective _ h).symm)
        · exact Or.inl (Option.some_injective _ h).symm

theorem v4_saida_cases (s : Nat) (ts : List Tick) (r : V4.SaidaResult)
    (h : V4.gerenciarSegurancaSaida s ts = some r) :
    r = ⟨false, Resolution.success, Ev.settle V4.ATRASO_FECHAMENTO :: V4.fecharCancelaEvents⟩ ∨
    r = ⟨true, Resolution.fraud, V4.fecharCancelaEvents⟩ ∨
    r = ⟨true, Resolution.timeout, V4.emitirAvisoSonoroFechamentoEvents⟩ := by
  induction ts with
  | nil => simp [V4.gerenciarSegurancaSaida] at h
  | cons t rest ih =>
    simp only [V4.gerenciarSegurancaSaida] at h
    split at h
    · exact Or.inl (Option.some_injective _ h).symm
    · split at h
      · exact Or.inr (Or.inr (Option.some_injective _ h).symm)
      · split at h
        · exact Or.inr (Or.inl (Option.some_injective _ h).symm)
        · exact ih h

theorem v4_entrada_timedOut_events (s : Nat) (ts : List Tick) (evs : List Ev)
    (h : V4.gerenciarSegurancaEntrada s ts = some (V4.EntradaOutcome.timedOut evs)) :
    evs = V4.emitirAvisoSonoroFechamentoEvents := by
  induction ts with
  | nil => simp [V4.gerenciarSegurancaEntrada] at h
  | cons t rest ih =>
    simp only [V4.gerenciarSegurancaEntrada] at h
    split at h
    · split at h
      · cases (Option.some_injective _ h)
        rfl
      · exact ih h
    · simp at h

theorem v4_rollback (x : Nat) (e s : Bool) (hfail : e = true ∨ s = true) :
    V4.atualizarContadorPosTransito x e s =
      if 0 < x then x - 1 else x := by
  rcases hfail with hf | hf <;> subst hf <;>
    simp [V4.atualizarContadorPosTransito]

theorem v4_transit_cases (c s : Nat) (ts : List Tick) (r : V4.TransitResult)
    (h : V4.fluxoEntradaVeiculo c s ts = some r) :
    r = ⟨wrap32 (c + 1),
      if 0 < wrap32 (c + 1) then wrap32 (c + 1) - 1 else wrap32 (c + 1),
      Resolution.timeout, Ev.abrir :: V4.emitirAvisoSonoroFechamentoEvents⟩ ∨
    r = ⟨wrap32 (c + 1), wrap32 (c + 1), Resolution.success,
      Ev.abrir :: Ev.settle V4.ATRASO_FECHAMENTO :: V4.fecharCancelaEvents⟩ ∨
    r = ⟨wrap32 (c + 1),
      if 0 < wrap32 (c + 1) then wrap32 (c + 1) - 1 else wrap32 (c + 1),
      Resolution.fraud, Ev.abrir :: V4.fecharCancelaEvents⟩ := by
  unfold V4.fluxoEntradaVeiculo at h
  cases he : V4.gerenciarSegurancaEntrada s ts with
  | none => rw [he] at h; exact absurd h (by simp)
  | some o =>
    rw [he] at h
    cases o with
    | timedOut evs =>
      have hev := v4_entrada_timedOut_events s ts evs he
      subst hev
      simp only [V4.emitirTicket] at h
      rw [v4_rollback (wrap32 (c + 1)) true false (Or.inl rfl)] at h
      exact Or.inl (Option.some_injective _ h).symm
    | liberou tc rest =>
      simp only at h
      cases hs : V4.gerenciarSegurancaSaida tc rest with
      | none => rw [hs] at h; exact absurd h (by simp)
      | some rs =>
        rw [hs] at h
        rcases v4_saida_cases tc rest rs hs with hc | hc | hc <;>
          subst hc <;> simp only [V4.emitirTicket] at h
        · simp only [V4.atualizarContadorPosTransito, Bool.or_false, if_neg] at h
          exact Or.inr (Or.inl (Option.some_injective _ h).symm)
        · rw [v4_rollback (wrap32 (c + 1)) false true (Or.inr rfl)] at h
          exact Or.inr (Or.inr (Option.some_injective _ h).symm)
        · rw [v4_rollback (wrap32 (c + 1)) false true (Or.inr rfl)] at h
          exact Or.inl (Option.some_injective _ h).symm

theorem v5_saida_cases (s : Nat) (ts : List V5.TickU) (r : V5.SaidaResult)
    (h : V5.monitorarSaidaEAntifraude s ts = some r) :
    r = ⟨true, Resolution.success,
      Ev.settle V5.ATRASO_FECHAMENTO_APOS_SAIDA :: V5.fecharCancelaEvents⟩ ∨
    r = ⟨false, Resolution.fraud, V5.fecharCancelaEvents⟩ ∨
    r = ⟨false, Resolution.timeout, V5.emitirAvisoSonoroEFecharEvents⟩ := by
  induction ts with
  | nil => simp [V5.monitorarSaidaEAntifraude] at h
  | cons t rest ih =>
    simp only [V5.monitorarSaidaEAntifraude] at h
    split at h
    · split at h
      · exact Or.inr (Or.inl (Option.some_injective _ h).symm)
      · split at h
        · exact Or.inr (Or.inr (Option.some_injective _ h).symm)
        · exact ih h
    · exact Or.inl (Option.some_injective _ h).symm

theorem v5_entrada_falha_events (s : Nat) (ts : List V5.TickU) (evs : List Ev)
    (h : V5.monitorarPassagemEntrada s ts = some (V5.EntradaOutcome.falha evs)) :
    evs = V5.emitirAvisoSonoroEFecharEvents := by
  induction ts with
  | nil => simp [V5.monitorarPassagemEntrada] at h
  | cons t rest ih =>
    simp only [V5.monitorarPassagemEntrada] at h
    split at h
    · split at h
      · cases (Option.some_injective _ h)
        rfl
      · exact ih h
    · simp at h

theorem v5_processo_cases (c s : Nat) (ts : List V5.TickU) (r : V5.ProcessoResult)
    (h : V5.iniciarProcessoEntradaVeiculo c s ts = some r) :
    r = ⟨c, Resolution.timeout, Ev.abrir :: V5.emitirAvisoSonoroEFecharEvents⟩ ∨
    r = ⟨wrap32 (c + 1), Resolution.success,
      Ev.abrir :: Ev.settle V5.ATRASO_FECHAMENTO_APOS_SAIDA :: V5.fecharCancelaEvents⟩ ∨
    r = ⟨c, Resolution.fraud, Ev.abrir :: V5.fecharCancelaEvents⟩ := by
  unfold V5.iniciarProcessoEntradaVeiculo at h
  cases he : V5.monitorarPassagemEntrada s ts with
  | none => rw [he] at h; exact absurd h (by simp)
  | some o =>
    rw [he] at h
    cases o with
    | falha evs =>
      have hev := v5_entrada_falha_events s ts evs he
      subst hev
      exact Or.inl (Option.some_injective _ h).symm
    | passou tc rest =>
      simp only at h
      cases hs : V5.monitorarSaidaEAntifraude tc rest with
      | none => rw [hs] at h; exact absurd h (by simp)
      | some rs =>
        rw [hs] at h
        rcases v5_saida_cases tc rest rs hs with hc | hc | hc <;>
          subst hc <;> simp only at h
        · exact Or.inr (Or.inl (Option.some_injective _ h).symm)
        · exact Or.inr (Or.inr (Option.some_injective _ h).symm)
        · exact Or.inl (Option.some_injective _ h).symm

theorem v3_transit_gate_closed (c s : Nat) (ts : List Tick) (r : V3.TransitResult)
    (g : Bool) (h : V3.transitoAposPedido c s ts = some r) :
    gateAfter g r.events = false := by
  rcases v3_transit_cases c s ts r h with hc | hc | hc <;> subst hc <;>
    cases g <;> rfl

theorem v5_processo_gate_closed (c s : Nat) (ts : List V5.TickU)
    (r : V5.ProcessoResult) (g : Bool)
    (h : V5.iniciarProcessoEntradaVeiculo c s ts = some r) :
    gateAfter g r.events = false := by
  rcases v5_processo_cases c s ts r h with hc | hc | hc <;> subst hc <;>
    cases g <;> rfl

theorem v3_iter_closed (st st2 : V3.SysState) (i : V3.IterIn)
    (h : V3.loopIter st i = some st2)
    (hc : st.estadoCancelaAberta = false) :
    st2.estadoCancelaAberta = false := by
  simp only [V3.loopIter] at h
  split at h
  · split at h
    · exact absurd h (by simp)
    · next r heq =>
        cases (Option.some_injective _ h)
        exact v3_transit_gate_closed _ _ _ r _ heq
  · cases (Option.some_injective _ h)
    exact hc

theorem v3_run_closed (ins : List V3.IterIn) (st st2 : V3.SysState)
    (h : V3.loopRun st ins = some st2)
    (hc : st.estadoCancelaAberta = false) :
    st2.estadoCancelaAberta = false := by
  induction ins generalizing st with
  | nil =>
    simp only [V3.loopRun] at h
    cases (Option.some_injective _ h)
    exact hc
  | cons i rest ih =>
    simp only [V3.loopRun] at h
    cases hi : V3.loopIter st i with
    | none => rw [hi] at h; exact absurd h (by simp)
    | some stm =>
      rw [hi] at h
      exact ih stm h (v3_iter_closed st stm i hi hc)

theorem v3_entrada_spin (s : Nat) (ts : List Tick)
    (hall : ∀ t ∈ ts, t.entrada = true)
    (hb : ∀ t ∈ ts, ¬ V3.TIMEOUT_OPERACAO < elapsedMs t.now s) :
    V3.monitorarPassagemEntrada s ts = none := by
  induction ts with
  | nil => rfl
  | cons t rest ih =>
    have h1 : t.entrada = true := hall t (List.mem_cons_self t rest)
    have h2 : ¬ V3.TIMEOUT_OPERACAO < elapsedMs t.now s :=
      hb t (List.mem_cons_self t rest)
    simp only [V3.monitorarPassagemEntrada, h1, if_true, if_neg h2]
    exact ih (fun u hu => hall u (List.mem_cons_of_mem t hu))
      (fun u hu => hb u (List.mem_cons_of_mem t hu))

theorem v3_entrada_excede (s : Nat) (ts : List Tick)
    (hall : ∀ t ∈ ts, t.entrada = true)
    (hb : ∃ t ∈ ts, V3.TIMEOUT_OPERACAO < elapsedMs t.now s) :
    V3.monitorarPassagemEntrada s ts =
      some (V3.EntradaOutcome.timedOut V3.emitirAvisoFechamentoEvents) := by
  induction ts with
  | nil =>
    rcases hb with ⟨t, ht, _⟩
    exact absurd ht (List.not_mem_nil t)
  | cons t rest ih =>
    have h1 : t.entrada = true := hall t (List.mem_cons_self t rest)
    by_cases hx : V3.TIMEOUT_OPERACAO < elapsedMs t.now s
    · simp only [V3.monitorarPassagemEntrada, h1, if_true, if_pos hx]
    · simp only [V3.monitorarPassagemEntrada, h1, if_true, if_neg hx]
      refine ih (fun u hu => hall u (List.mem_cons_of_mem t hu)) ?_
      rcases hb with ⟨u, hu, hux⟩
      rcases List.mem_cons.mp hu with hut | hur
      · exact absurd (hut ▸ hux) hx
      · exact ⟨u, hur, hux⟩

theorem v1_entrada_spin (s : Nat) (ts : List Tick)
    (hall : ∀ t ∈ ts, t.entrada = true)
    (hb : ∀ t ∈ ts, elapsedMs t.now s < V1.TIMEOUT_ENTRADA_MS) :
    V1.gerenciarEntradaVeiculo s ts = none := by
  induction ts with
  | nil => rfl
  | cons t rest ih =>
    have h1 : t.entrada = true := hall t (List.mem_cons_self t rest)
    have h2 : ¬ V1.TIMEOUT_ENTRADA_MS ≤ elapsedMs t.now s :=
      Nat.not_le.mpr (hb t (List.mem_cons_self t rest))
    simp only [V1.gerenciarEntradaVeiculo, h1, if_true, if_neg h2]
    exact ih (fun u hu => hall u (List.mem_cons_of_mem t hu))
      (fun u hu => hb u (List.mem_cons_of_mem t hu))

theorem v1_entrada_excede (s : Nat) (ts : List Tick)
    (hall : ∀ t ∈ ts, t.entrada = true)
    (hb : ∃ t ∈ ts, V1.TIMEOUT_ENTRADA_MS ≤ elapsedMs t.now s) :
    V1.gerenciarEntradaVeiculo s ts = some false := by
  induction ts with
  | nil =>
    rcases hb with ⟨t, ht, _⟩
    exact absurd ht (List.not_mem_nil t)
  | cons t rest ih =>
    have h1 : t.entrada = true := hall t (List.mem_cons_self t rest)
    by_cases hx : V1.TIMEOUT_ENTRADA_MS ≤ elapsedMs t.now s
    · simp only [V1.gerenciarEntradaVeiculo, h1, if_true, if_pos hx]
    · simp only [V1.gerenciarEntradaVeiculo, h1, if_true, if_neg hx]
      refine ih (fun u hu => hall u (List.mem_cons_of_mem t hu)) ?_
      rcases hb with ⟨u, hu, hux⟩
      rcases List.mem_cons.mp hu with hut | hur
      · exact absurd (hut ▸ hux) hx
      · exact ⟨u, hur, hux⟩

theorem v3_saida_retorno_de_falha (s : Nat) (ts : List Tick) (r : V3.SaidaResult)
    (h : V3.monitorarPassagemSaida s ts = some r)
    (hres : r.res ≠ Resolution.success) :
    r.retorno = true := by
  rcases v3_saida_cases s ts r h with hc | hc | hc <;> subst hc
  · exact absurd rfl hres
  · rfl
  · rfl

theorem v4_saida_flag_de_falha (s : Nat) (ts : List Tick) (r : V4.SaidaResult)
    (h : V4.gerenciarSegurancaSaida s ts = some r)
    (hres : r.res ≠ Resolution.success) :
    r.timeoutSaidaOcorrido = true := by
  rcases v4_saida_cases s ts r h with hc | hc | hc <;> subst hc
  · exact absurd rfl hres
  · rfl
  · rfl

/-! Claim theorems. -/

/-- C1, counterexample.  The claim says that within the exit-supervision
phase a tick with the entry sensor active always resolves FRAUD, never
SUCCESS (even if the exit sensor is simultaneously active) and never
TIMEOUT (even if the deadline has expired).  In V3, a tick with both
sensors active resolves SUCCESS (the exit sensor is the `while` condition,
read first); in V4, a tick with the entry sensor active and the deadline
expired resolves TIMEOUT (V4 checks the timeout before the anti-fraud
read). -/
theorem c1_contraexemplo :
    (V3.monitorarPassagemSaida 0 [⟨true, true, 0⟩]).map V3.SaidaResult.res =
      some Resolution.success
    ∧ some Resolution.success ≠ some Resolution.fraud
    ∧ (V4.gerenciarSegurancaSaida 0 [⟨true, false, 30001⟩]).map V4.SaidaResult.res =
      some Resolution.timeout
    ∧ some Resolution.timeout ≠ some Resolution.fraud := by
  decide

/-- C1, amended.  Within the exit-supervision phase: in V3, on any tick
where the exit sensor is INACTIVE and the entry sensor is active, the
transit resolves FRAUD — never TIMEOUT, even when the deadline has expired
on that same tick (fraud is read before the timeout); a tick with the exit
sensor active resolves SUCCESS regardless of the entry sensor.  In V4 the
per-tick precedence is exit, then timeout, then fraud: entry presence
resolves FRAUD only while the deadline has not expired, and an expired
deadline resolves TIMEOUT even with the entry sensor active. -/
theorem c1_precedencia_fraude_corrigida (s : Nat) (t : Tick) (rest : List Tick)
    (hs : t.saida = false) :
    (t.entrada = true →
      V3.monitorarPassagemSaida s (t :: rest) =
        some ⟨true, Resolution.fraud, V3.fecharCancelaEvents⟩)
    ∧ (t.entrada = true → elapsedMs t.now s ≤ V4.TIMEOUT_OPERACAO →
      V4.gerenciarSegurancaSaida s (t :: rest) =
        some ⟨true, Resolution.fraud, V4.fecharCancelaEvents⟩)
    ∧ (V4.TIMEOUT_OPERACAO < elapsedMs t.now s →
      V4.gerenciarSegurancaSaida s (t :: rest) =
        some ⟨true, Resolution.timeout, V4.emitirAvisoSonoroFechamentoEvents⟩) := by
  refine ⟨?_, ?_, ?_⟩
  · intro he
    simp [V3.monitorarPassagemSaida, hs, he]
  · intro he hle
    simp [V4.gerenciarSegurancaSaida, hs, he, Nat.not_lt.mpr hle]
  · intro hlt
    simp [V4.gerenciarSegurancaSaida, hs, hlt]

/-- C1 witness: the amended theorem applied at a fraud tick (both versions,
deadline not expired) and at an expired-deadline tick (V4). -/
theorem c1_precedencia_fraude_corrigida_witness :
    V3.monitorarPassagemSaida 7 [⟨true, false, 10⟩] =
      some ⟨true, Resolution.fraud, V3.fecharCancelaEvents⟩
    ∧ V4.gerenciarSegurancaSaida 7 [⟨true, false, 10⟩] =
      some ⟨true, Resolution.fraud, V4.fecharCancelaEvents⟩
    ∧ V4.gerenciarSegurancaSaida 0 [⟨true, false, 30001⟩] =
      some ⟨true, Resolution.timeout, V4.emitirAvisoSonoroFechamentoEvents⟩ := by
  exact ⟨(c1_precedencia_fraude_corrigida 7 ⟨true, false, 10⟩ [] rfl).1 rfl,
    (c1_precedencia_fraude_corrigida 7 ⟨true, false, 10⟩ [] rfl).2.1 rfl (by decide),
    (c1_precedencia_fraude_corrigida 0 ⟨true, false, 30001⟩ [] rfl).2.2 (by decide)⟩

/-- C2 (code bug).  The claim (and spec §4.2/§9) requires the counter to be
untouched until the transit succeeds, with the ticket showing
`dailyCount + 1`.  V3 conforms (`simularImpressaoTicket` prints
`contadorVeiculos + 1` and does not modify the counter), but V4's
`emitirTicket` increments `contadorVeiculosDia` BEFORE showing the ticket:
with pre-admission counter 5 the stored counter already holds 6 at the
moment the ticket is displayed (the printed number, 6, does equal the
pre-admission value + 1). -/
theorem c2_incremento_especulativo_v4 :
    V3.simularImpressaoTicket 5 = 5 + 1
    ∧ V4.emitirTicket 5 = (6, 6)
    ∧ (V4.emitirTicket 5).1 = 5 + 1
    ∧ (V4.emitirTicket 5).2 ≠ 5 := by
  decide

/-- C3, counterexample.  The claim says V3 keeps one continuous deadline
from admission: a transit spending `t1` in the entry phase would have only
`OPERATION_TIMEOUT - t1` left for the exit phase.  Concretely (admission at
0): the entry sensor clears at 20000 ms, then an exit-phase tick arrives at
35000 ms — 15000 ms into the exit phase but 5000 ms past the continuous
deadline (30000).  Under the claim this tick must resolve TIMEOUT; V3 does
not resolve at all (`monitorarPassagemSaida` restarted its own `millis()`
base), and only a tick past 20000 + 30000 ms resolves TIMEOUT. -/
theorem c3_contraexemplo :
    V3.transitoAposPedido 0 0
      [⟨true, false, 1000⟩, ⟨false, false, 20000⟩, ⟨false, false, 35000⟩] = none
    ∧ (V3.transitoAposPedido 0 0
        [⟨true, false, 1000⟩, ⟨false, false, 20000⟩, ⟨false, false, 35000⟩,
          ⟨false, false, 50001⟩]).map V3.TransitResult.res =
      some Resolution.timeout := by
  decide

/-- C3, amended.  Each V3 supervision phase has its own full
`TIMEOUT_OPERACAO` budget: `monitorarPassagemSaida` measures from its own
start time `tc` (the tick on which the entry sensor cleared, per
`transitoAposPedido`), timing out on a quiet tick iff that tick is more
than `TIMEOUT_OPERACAO` past `tc` — regardless of how long the entry phase
took.  Only V2 (src/unnamed/part_005) keeps one continuous deadline from
admission: there a tick past the single admission start resolves TIMEOUT
in either phase (whatever `passouPelaEntrada` is). -/
theorem c3_orcamento_por_fase (tc s0 : Nat) (t : Tick) (rest : List Tick)
    (hs : t.saida = false) (he : t.entrada = false)
    (pas : Bool) (tv : Tick) (restv : List Tick) :
    (V3.TIMEOUT_OPERACAO < elapsedMs t.now tc →
      V3.monitorarPassagemSaida tc (t :: rest) =
        some ⟨true, Resolution.timeout, V3.emitirAvisoFechamentoEvents⟩)
    ∧ (elapsedMs t.now tc ≤ V3.TIMEOUT_OPERACAO →
      V3.monitorarPassagemSaida tc (t :: rest) = V3.monitorarPassagemSaida tc rest)
    ∧ (V2.TIMEOUT_OPERACAO < elapsedMs tv.now s0 →
      V2.gerenciarPassagem s0 pas (tv :: restv) = some Resolution.timeout) := by
  refine ⟨?_, ?_, ?_⟩
  · intro hlt
    simp [V3.monitorarPassagemSaida, hs, he, hlt]
  · intro hle
    simp [V3.monitorarPassagemSaida, hs, he, Nat.not_lt.mpr hle]
  · intro hlt
    simp [V2.gerenciarPassagem, hlt]

/-- C3 witness: exit phase started at 20000 ms; a quiet tick at 35000 ms
(15000 ms into the phase) keeps spinning, one at 50001 ms times out; a V2
tick past the single admission deadline times out mid-exit-phase. -/
theorem c3_orcamento_por_fase_witness :
    V3.monitorarPassagemSaida 20000 [⟨false, false, 50001⟩] =
      some ⟨true, Resolution.timeout, V3.emitirAvisoFechamentoEvents⟩
    ∧ V3.monitorarPassagemSaida 20000 [⟨false, false, 35000⟩] =
      V3.monitorarPassagemSaida 20000 []
    ∧ V2.gerenciarPassagem 0 true [⟨false, false, 30001⟩] = some Resolution.timeout := by
  exact ⟨(c3_orcamento_por_fase 20000 0 ⟨false, false, 50001⟩ [] rfl rfl true
      ⟨false, false, 30001⟩ []).1 (by decide),
    (c3_orcamento_por_fase 20000 0 ⟨false, false, 35000⟩ [] rfl rfl true
      ⟨false, false, 30001⟩ []).2.1 (by decide),
    (c3_orcamento_por_fase 20000 0 ⟨false, false, 30001⟩ [] rfl rfl true
      ⟨false, false, 30001⟩ []).2.2 (by decide)⟩

/-- C4, counterexample.  The claim quantifies over every admitted transit,
but the daily counter is a wrapping `unsigned int`: at pre-admission
counter 2^32 - 1 a successful V3 transit leaves the counter at 0, not at
2^32 - 1 + 1, and a fraud-resolved V4 transit also leaves 0 — the
increment taken by `emitirTicket` wrapped to 0 and the guarded rollback
(`if (contadorVeiculosDia > 0)`, V4.ino lines 374-376) cannot restore the
pre-admission value. -/
theorem c4_contraexemplo :
    (V3.transitoAposPedido 4294967295 0
      [⟨false, false, 5⟩, ⟨false, true, 10⟩]).map V3.TransitResult.contadorDepois =
      some 0
    ∧ (0 : Nat) ≠ 4294967295 + 1
    ∧ (V4.fluxoEntradaVeiculo 4294967295 0
      [⟨false, false, 5⟩, ⟨true, false, 10⟩]).map V4.TransitResult.contadorDepois =
      some 0
    ∧ (0 : Nat) ≠ 4294967295 := by
  decide

/-- C4, amended.  For every admitted transit whose pre-admission counter
`c` does not wrap (`c + 1 < 2^32`), the counter after resolution equals
`c + 1` exactly on SUCCESS and equals `c` unchanged on TIMEOUT and on
FRAUD — in V3 because the increment only happens on the success branch of
`loop`, in V4 because the speculative increment taken by `emitirTicket` is
rolled back by the post-transit update whenever a timeout/fraud flag is
set.  At the wrap value `c = 2^32 - 1` both guarantees fail (see the
counterexample): success leaves 0, and V4's failed-transit rollback also
leaves 0. -/
theorem c4_contador_por_resolucao (cA sA : Nat) (tsA : List Tick)
    (rA : V3.TransitResult) (cB sB : Nat) (tsB : List Tick)
    (rB : V4.TransitResult)
    (hA : V3.transitoAposPedido cA sA tsA = some rA)
    (hB : V4.fluxoEntradaVeiculo cB sB tsB = some rB)
    (hwA : cA + 1 < 4294967296) (hwB : cB + 1 < 4294967296) :
    (rA.res = Resolution.success → rA.contadorDepois = cA + 1)
    ∧ (rA.res = Resolution.timeout ∨ rA.res = Resolution.fraud →
      rA.contadorDepois = cA)
    ∧ (rB.res = Resolution.success → rB.contadorDepois = cB + 1)
    ∧ (rB.res = Resolution.timeout ∨ rB.res = Resolution.fraud →
      rB.contadorDepois = cB) := by
  have hmA : wrap32 (cA + 1) = cA + 1 := Nat.mod_eq_of_lt hwA
  have hmB : wrap32 (cB + 1) = cB + 1 := Nat.mod_eq_of_lt hwB
  rcases v3_transit_cases cA sA tsA rA hA with hc | hc | hc <;>
    rcases v4_transit_cases cB sB tsB rB hB with hd | hd | hd <;>
      subst hc <;> subst hd <;>
        exact ⟨fun h => by simp_all, fun h => by rcases h with h | h <;> simp_all,
          fun h => by simp_all [hmB], fun h => by rcases h with h | h <;> simp_all [hmB]⟩

/-- C4 witness: a successful V3 transit from counter 2 ends at 3; a V4
transit from counter 2 resolved by fraud ends back at 2 (no wrap at 2). -/
theorem c4_contador_por_resolucao_witness :
    ((Resolution.success = Resolution.success →
      (3 : Nat) = 2 + 1)
    ∧ (Resolution.success = Resolution.timeout ∨
        Resolution.success = Resolution.fraud → (3 : Nat) = 2)
    ∧ (Resolution.fraud = Resolution.success → (2 : Nat) = 2 + 1)
    ∧ (Resolution.fraud = Resolution.timeout ∨ Resolution.fraud = Resolution.fraud →
      (2 : Nat) = 2)) := by
  exact c4_contador_por_resolucao 2 0 [⟨false, false, 5⟩, ⟨false, true, 10⟩]
    ⟨3, 3, Resolution.success,
      V3.abrirCancelaEvents ++ (Ev.settle V3.DELAY_POS_SAIDA :: V3.fecharCancelaEvents)⟩
    2 0 [⟨false, false, 5⟩, ⟨true, false, 10⟩]
    ⟨3, 2, Resolution.fraud, Ev.abrir :: V4.fecharCancelaEvents⟩
    (by decide) (by decide) (by decide) (by decide)

/-- C5 (confirmed).  Admission requires, on the same loop tick, entry
presence AND button AND a closed gate: in V2 and V5 the loop guard tests
exactly that conjunction (so no admission while the gate is open); V3's
guard tests only the two inputs, but every state reachable at the top of
the V3 loop (starting from the closed gate established by `setup`) has the
gate closed — every resolution of an admitted transit closes it — so no V3
transit is ever admitted while the gate is open either. -/
theorem c5_admissao_exige_cancela_fechada (c0 : Nat) (d0 : String)
    (ins : List V3.IterIn) (st : V3.SysState)
    (h : V3.loopRun ⟨false, c0, d0⟩ ins = some st) (e b a : Bool) :
    st.estadoCancelaAberta = false
    ∧ V2.condicaoInicio e b true = false
    ∧ V5.condicaoInicio e b true = false
    ∧ (V2.condicaoInicio e b a = true ↔ e = true ∧ b = true ∧ a = false)
    ∧ (V5.condicaoInicio e b a = true ↔ e = true ∧ b = true ∧ a = false) := by
  refine ⟨v3_run_closed ins ⟨false, c0, d0⟩ st h rfl, ?_⟩
  cases e <;> cases b <;> cases a <;> decide

/-- C5 witness: one admitted, successfully resolved V3 iteration leaves the
gate closed; the V2/V5 guards evaluated at an open gate. -/
theorem c5_admissao_exige_cancela_fechada_witness :
    (V3.SysState.mk false 1 "01/01/2025").estadoCancelaAberta = false
    ∧ V2.condicaoInicio true true true = false
    ∧ V5.condicaoInicio true true true = false
    ∧ (V2.condicaoInicio true true true = true ↔
      true = true ∧ true = true ∧ true = false)
    ∧ (V5.condicaoInicio true true true = true ↔
      true = true ∧ true = true ∧ true = false) := by
  exact c5_admissao_exige_cancela_fechada 0 "01/01/2025"
    [⟨"01/01/2025", true, true, 0, [⟨false, false, 10⟩, ⟨false, true, 20⟩]⟩]
    ⟨false, 1, "01/01/2025"⟩ (by decide) true true true

/-- C6 (confirmed).  The two failure closings of a V3 transit are
asymmetric: a TIMEOUT resolution emits exactly `BEEP_AVISO_TIMEOUT` warning
beeps of `DURACAO_BEEP` ms each and only then the close command, while a
FRAUD resolution emits the close command immediately — no beep and no
settle delay (the whole emitted trace after opening is just the close). -/
theorem c6_fechamento_assimetrico (c s : Nat) (ts : List Tick)
    (r : V3.TransitResult) (h : V3.transitoAposPedido c s ts = some r) :
    (r.res = Resolution.timeout →
      r.events = Ev.abrir ::
        (List.replicate V3.BEEP_AVISO_TIMEOUT (Ev.beep V3.DURACAO_BEEP) ++ [Ev.fechar]))
    ∧ (r.res = Resolution.fraud → r.events = [Ev.abrir, Ev.fechar]) := by
  rcases v3_transit_cases c s ts r h with hc | hc | hc <;> subst hc <;>
    exact ⟨fun hr => by simp_all [V3.emitirAvisoFechamentoEvents,
        V3.fecharCancelaEvents, V3.abrirCancelaEvents],
      fun hr => by simp_all [V3.fecharCancelaEvents, V3.abrirCancelaEvents]⟩

/-- C6 witness: a fraud-resolved V3 transit (entry cleared, then a second
vehicle at the entry) emits open-then-close with no beeps. -/
theorem c6_fechamento_assimetrico_witness :
    ((Resolution.fraud = Resolution.timeout →
      V3.abrirCancelaEvents ++ V3.fecharCancelaEvents = Ev.abrir ::
        (List.replicate V3.BEEP_AVISO_TIMEOUT (Ev.beep V3.DURACAO_BEEP) ++ [Ev.fechar]))
    ∧ (Resolution.fraud = Resolution.fraud →
      V3.abrirCancelaEvents ++ V3.fecharCancelaEvents = [Ev.abrir, Ev.fechar])) := by
  exact c6_fechamento_assimetrico 0 0 [⟨false, false, 5⟩, ⟨true, false, 10⟩]
    ⟨1, 0, Resolution.fraud, V3.abrirCancelaEvents ++ V3.fecharCancelaEvents⟩
    (by decide)

/-- C7 (confirmed).  With the 30000 ms operation timeout, an entry phase
whose sensor stays active with every tick at most 29999 ms after the start
does not resolve (keeps spinning), and one containing a tick exactly
30001 ms after the start resolves as an entry timeout — in V3
(`monitorarPassagemEntrada`, strict compare) and in V1
(`gerenciarEntradaVeiculo`, non-strict compare) alike. -/
theorem c7_fronteira_timeout (sA sB : Nat) (tsA tsB : List Tick)
    (hallA : ∀ t ∈ tsA, t.entrada = true)
    (hallB : ∀ t ∈ tsB, t.entrada = true)
    (hbA : ∀ t ∈ tsA, elapsedMs t.now sA ≤ V3.TIMEOUT_OPERACAO - 1)
    (hbB : ∃ t ∈ tsB, elapsedMs t.now sB = V3.TIMEOUT_OPERACAO + 1) :
    V3.monitorarPassagemEntrada sA tsA = none
    ∧ V1.gerenciarEntradaVeiculo sA tsA = none
    ∧ V3.monitorarPassagemEntrada sB tsB =
      some (V3.EntradaOutcome.timedOut V3.emitirAvisoFechamentoEvents)
    ∧ V1.gerenciarEntradaVeiculo sB tsB = some false := by
  refine ⟨?_, ?_, ?_, ?_⟩
  · refine v3_entrada_spin sA tsA hallA (fun t ht => Nat.not_lt.mpr ?_)
    exact le_trans (hbA t ht) (by decide)
  · refine v1_entrada_spin sA tsA hallA (fun t ht => ?_)
    exact lt_of_le_of_lt (hbA t ht) (by decide)
  · refine v3_entrada_excede sB tsB hallB ?_
    rcases hbB with ⟨t, ht, hx⟩
    exact ⟨t, ht, by rw [hx]; decide⟩
  · refine v1_entrada_excede sB tsB hallB ?_
    rcases hbB with ⟨t, ht, hx⟩
    exact ⟨t, ht, by rw [hx]; decide⟩

/-- C7 witness: a single still-occupied tick at 29999 ms does not resolve;
a single still-occupied tick at 30001 ms resolves as timeout (V3 and V1). -/
theorem c7_fronteira_timeout_witness :
    V3.monitorarPassagemEntrada 0 [⟨true, false, 29999⟩] = none
    ∧ V1.gerenciarEntradaVeiculo 0 [⟨true, false, 29999⟩] = none
    ∧ V3.monitorarPassagemEntrada 0 [⟨true, false, 30001⟩] =
      some (V3.EntradaOutcome.timedOut V3.emitirAvisoFechamentoEvents)
    ∧ V1.gerenciarEntradaVeiculo 0 [⟨true, false, 30001⟩] = some false := by
  exact c7_fronteira_timeout 0 0 [⟨true, false, 29999⟩] [⟨true, false, 30001⟩]
    (by decide) (by decide) (by decide) (by decide)

/-- C8 (confirmed).  The day-boundary reset is atomic and idempotent: one
application with a date differing from the stored `ultimaDataReset` (which
in any running loop is non-empty, `atualizarRelogio` initialises it before
the check) returns the pair (0, current date) — counter and date stamped in
the same step — and a second application with that same current date
returns the same pair unchanged.  V4's reset (no emptiness guard) behaves
identically. -/
theorem c8_reset_diario_idempotente (c : Nat) (lr cur : String)
    (hlr : lr ≠ "") (hne : cur ≠ lr) :
    V3.verificarResetDiarioContador c lr cur = (0, cur)
    ∧ V3.verificarResetDiarioContador 0 cur cur = (0, cur)
    ∧ V4.resetDiario c lr cur = (0, cur)
    ∧ V4.resetDiario 0 cur cur = (0, cur) := by
  refine ⟨?_, ?_, ?_, ?_⟩ <;>
    simp [V3.verificarResetDiarioContador, V4.resetDiario, hlr, hne]

/-- C8 witness: spec §8 Scenario D — stored date 01/01/2025, counter 7,
current date 02/01/2025. -/
theorem c8_reset_diario_idempotente_witness :
    V3.verificarResetDiarioContador 7 "01/01/2025" "02/01/2025" = (0, "02/01/2025")
    ∧ V3.verificarResetDiarioContador 0 "02/01/2025" "02/01/2025" = (0, "02/01/2025")
    ∧ V4.resetDiario 7 "01/01/2025" "02/01/2025" = (0, "02/01/2025")
    ∧ V4.resetDiario 0 "02/01/2025" "02/01/2025" = (0, "02/01/2025") := by
  exact c8_reset_diario_idempotente 7 "01/01/2025" "02/01/2025"
    (by decide) (by decide)

/-- C9 (confirmed).  At the resolution interface, FRAUD and TIMEOUT are
indistinguishable: V3's `monitorarPassagemSaida` returns the same value
`true` for both (the caller's `loop` only sees that boolean), and V4's
`gerenciarSegurancaSaida` sets the same `timeoutSaidaOcorrido = true` flag
for both, so post-transit handling cannot branch on which failure it was. -/
theorem c9_falhas_indistinguiveis (sa sb sc sd : Nat)
    (ta tb tc td : List Tick) (ra rb : V3.SaidaResult) (rc rd : V4.SaidaResult)
    (ha : V3.monitorarPassagemSaida sa ta = some ra) (hra : ra.res = Resolution.fraud)
    (hb : V3.monitorarPassagemSaida sb tb = some rb) (hrb : rb.res = Resolution.timeout)
    (hc : V4.gerenciarSegurancaSaida sc tc = some rc) (hrc : rc.res = Resolution.fraud)
    (hd : V4.gerenciarSegurancaSaida sd td = some rd) (hrd : rd.res = Resolution.timeout) :
    ra.retorno = true ∧ rb.retorno = true ∧ ra.retorno = rb.retorno
    ∧ rc.timeoutSaidaOcorrido = true ∧ rd.timeoutSaidaOcorrido = true
    ∧ rc.timeoutSaidaOcorrido = rd.timeoutSaidaOcorrido := by
  have h1 : ra.retorno = true :=
    v3_saida_retorno_de_falha sa ta ra ha (by simp [hra])
  have h2 : rb.retorno = true :=
    v3_saida_retorno_de_falha sb tb rb hb (by simp [hrb])
  have h3 : rc.timeoutSaidaOcorrido = true :=
    v4_saida_flag_de_falha sc tc rc hc (by simp [hrc])
  have h4 : rd.timeoutSaidaOcorrido = true :=
    v4_saida_flag_de_falha sd td rd hd (by simp [hrd])
  exact ⟨h1, h2, h1.trans h2.symm, h3, h4, h3.trans h4.symm⟩

/-- C9 witness: concrete fraud and timeout runs of both exit supervisors. -/
theorem c9_falhas_indistinguiveis_witness :
    (V3.SaidaResult.mk true Resolution.fraud V3.fecharCancelaEvents).retorno = true
    ∧ (V3.SaidaResult.mk true Resolution.timeout V3.emitirAvisoFechamentoEvents).retorno = true
    ∧ (V3.SaidaResult.mk true Resolution.fraud V3.fecharCancelaEvents).retorno =
      (V3.SaidaResult.mk true Resolution.timeout V3.emitirAvisoFechamentoEvents).retorno
    ∧ (V4.SaidaResult.mk true Resolution.fraud V4.fecharCancelaEvents).timeoutSaidaOcorrido = true
    ∧ (V4.SaidaResult.mk true Resolution.timeout V4.emitirAvisoSonoroFechamentoEvents).timeoutSaidaOcorrido = true
    ∧ (V4.SaidaResult.mk true Resolution.fraud V4.fecharCancelaEvents).timeoutSaidaOcorrido =
      (V4.SaidaResult.mk true Resolution.timeout V4.emitirAvisoSonoroFechamentoEvents).timeoutSaidaOcorrido := by
  exact c9_falhas_indistinguiveis 0 0 0 0
    [⟨true, false, 10⟩] [⟨false, false, 30001⟩]
    [⟨true, false, 10⟩] [⟨false, false, 30001⟩]
    ⟨true, Resolution.fraud, V3.fecharCancelaEvents⟩
    ⟨true, Resolution.timeout, V3.emitirAvisoFechamentoEvents⟩
    ⟨true, Resolution.fraud, V4.fecharCancelaEvents⟩
    ⟨true, Resolution.timeout, V4.emitirAvisoSonoroFechamentoEvents⟩
    (by decide) rfl (by decide) rfl (by decide) rfl (by decide) rfl

/-- C10 (confirmed).  Every resolution of an admitted transit — SUCCESS,
TIMEOUT and FRAUD — emits the close command before returning, so the gate
is closed when the main loop is back at idle: shown for the V3 transit
(`transitoAposPedido`) and the V5 transit (`iniciarProcessoEntradaVeiculo`),
whatever the gate position when the events are replayed from the opened
gate. -/
theorem c10_resolucao_sempre_fecha (cA sA : Nat) (tsA : List Tick)
    (rA : V3.TransitResult) (cB sB : Nat) (tsB : List V5.TickU)
    (rB : V5.ProcessoResult)
    (hA : V3.transitoAposPedido cA sA tsA = some rA)
    (hB : V5.iniciarProcessoEntradaVeiculo cB sB tsB = some rB) :
    Ev.fechar ∈ rA.events ∧ gateAfter true rA.events = false
    ∧ Ev.fechar ∈ rB.events ∧ gateAfter true rB.events = false := by
  refine ⟨?_, v3_transit_gate_closed cA sA tsA rA true hA, ?_,
    v5_processo_gate_closed cB sB tsB rB true hB⟩
  · rcases v3_transit_cases cA sA tsA rA hA with hc | hc | hc <;> subst hc <;>
      simp [V3.abrirCancelaEvents, V3.fecharCancelaEvents,
        V3.emitirAvisoFechamentoEvents]
  · rcases v5_processo_cases cB sB tsB rB hB with hc | hc | hc <;> subst hc <;>
      simp [V5.fecharCancelaEvents, V5.emitirAvisoSonoroEFecharEvents]

/-- C10 witness: a successful V3 transit and a timed-out V5 transit both
end with the gate closed. -/
theorem c10_resolucao_sempre_fecha_witness :
    Ev.fechar ∈ (V3.abrirCancelaEvents ++
      (Ev.settle V3.DELAY_POS_SAIDA :: V3.fecharCancelaEvents))
    ∧ gateAfter true (V3.abrirCancelaEvents ++
      (Ev.settle V3.DELAY_POS_SAIDA :: V3.fecharCancelaEvents)) = false
    ∧ Ev.fechar ∈ (Ev.abrir :: V5.emitirAvisoSonoroEFecharEvents)
    ∧ gateAfter true (Ev.abrir :: V5.emitirAvisoSonoroEFecharEvents) = false := by
  exact c10_resolucao_sempre_fecha 0 0 [⟨false, false, 5⟩, ⟨false, true, 10⟩]
    ⟨1, 1, Resolution.success,
      V3.abrirCancelaEvents ++ (Ev.settle V3.DELAY_POS_SAIDA :: V3.fecharCancelaEvents)⟩
    0 0 [⟨40, 100, 30001⟩]
    ⟨0, Resolution.timeout, Ev.abrir :: V5.emitirAvisoSonoroEFecharEvents⟩
    (by decide) (by decide)
